import Mathlib

/-!
Verification of the android_system_properties repository (two Rust source
files: src/android.rs, the simpler variant, and src/lib.rs, the fuller
variant with set/iter).  The embedding is byte-level: Rust strings and C
strings are modelled as lists of byte values (List Nat), a Rust String
being a byte list satisfying the UTF-8 validity predicate.  Dynamically
resolved native functions are modelled as semantic functions supplied by a
symbol-resolution environment; an opaque property_info pointer is a Nat
token; a null pointer is Option.none.  Rust panics (assert!, unwrap) are
modelled by the RustResult type.  Uninitialized memory read past the bytes
a native function actually wrote is modelled by an explicit oracle
function (uninit : Nat -> Nat).
-/

set_option autoImplicit false

/-- Byte strings crossing the FFI boundary: a list of byte values. -/
abbrev Bytes := List Nat

/-- Outcome of running a piece of Rust code that may panic (failed assert! or
unwrap).  RustResult.ok v is a normal return of v; RustResult.panicked is a
panic. -/
inductive RustResult (α : Type) where
  | ok (val : α) : RustResult α
  | panicked : RustResult α
deriving DecidableEq

deriving instance DecidableEq for Except

/-- Continuation byte test of UTF-8 (0x80..0xBF). -/
def utf8Cont (b : Nat) : Bool := 0x80 ≤ b && b ≤ 0xbf

/-- UTF-8 validity of a byte sequence, as checked by Rust's
String::from_utf8 and CStr::to_str (the standard UTF-8 well-formedness
table: no overlong forms, no surrogates, max U+10FFFF). -/
def utf8Valid : Bytes → Bool
  | [] => true
  | b :: rest =>
    if b ≤ 0x7f then utf8Valid rest
    else if 0xc2 ≤ b && b ≤ 0xdf then
      match rest with
      | b1 :: rest1 => utf8Cont b1 && utf8Valid rest1
      | [] => false
    else if b == 0xe0 then
      match rest with
      | b1 :: b2 :: rest2 => (0xa0 ≤ b1 && b1 ≤ 0xbf) && utf8Cont b2 && utf8Valid rest2
      | _ => false
    else if (0xe1 ≤ b && b ≤ 0xec) || b == 0xee || b == 0xef then
      match rest with
      | b1 :: b2 :: rest2 => utf8Cont b1 && utf8Cont b2 && utf8Valid rest2
      | _ => false
    else if b == 0xed then
      match rest with
      | b1 :: b2 :: rest2 => (0x80 ≤ b1 && b1 ≤ 0x9f) && utf8Cont b2 && utf8Valid rest2
      | _ => false
    else if b == 0xf0 then
      match rest with
      | b1 :: b2 :: b3 :: rest3 =>
        (0x90 ≤ b1 && b1 ≤ 0xbf) && utf8Cont b2 && utf8Cont b3 && utf8Valid rest3
      | _ => false
    else if 0xf1 ≤ b && b ≤ 0xf3 then
      match rest with
      | b1 :: b2 :: b3 :: rest3 =>
        utf8Cont b1 && utf8Cont b2 && utf8Cont b3 && utf8Valid rest3
      | _ => false
    else if b == 0xf4 then
      match rest with
      | b1 :: b2 :: b3 :: rest3 =>
        (0x80 ≤ b1 && b1 ≤ 0x8f) && utf8Cont b2 && utf8Cont b3 && utf8Valid rest3
      | _ => false
    else false

/-- CStr::from_ptr: the bytes a C string pointer denotes are those before
the first null byte of the pointed-to memory. -/
def cstrFromPtr (mem : Bytes) : Bytes := mem.takeWhile (fun b => b != 0)

/-- CString::new(name): succeeds iff the byte string has no interior null
byte, transmitting the bytes unchanged (the terminating null is implicit in
the model). -/
def cstringNew (s : Bytes) : Option Bytes :=
  if s.contains 0 then none else some s

/-- Reading len bytes back out of a buffer into which a native function
wrote the byte list written: positions past the written bytes yield
uninitialized memory, supplied by the oracle uninit. -/
def readBuffer (written : Bytes) (uninit : Nat → Nat) (len : Nat) : Bytes :=
  (List.range len).map fun i => if i < written.length then written.getD i 0 else uninit i

/-- String::from_utf8(bytes).ok(): keeps the bytes when they are valid
UTF-8, yields none otherwise. -/
def stringFromUtf8 (b : Bytes) : Option Bytes :=
  if utf8Valid b then some b else none

/-- Semantic type of a resolved __system_property_find symbol: maps the
name bytes to an opaque property_info token, or none for a null pointer. -/
abbrev FindFn := Bytes → Option Nat

/-- Semantic type of a resolved __system_property_read_callback symbol: for
an opaque property_info token, the (name memory, value memory, serial)
triple the native layer hands to the callback. -/
abbrev ReadCallbackFn := Nat → Bytes × Bytes × Nat

/-- Semantic type of a resolved __system_property_get symbol: maps the name
bytes to the bytes the native function writes into the caller's buffer and
the returned c_int length. -/
abbrev GetFn := Bytes → Bytes × Int

/-- Semantic type of a resolved __system_property_set symbol: maps name and
value bytes to the returned c_int status. -/
abbrev SetFn := Bytes → Bytes → Int

/-- Semantic type of a resolved __system_property_foreach symbol: the list
of opaque property_info tokens for which the native enumeration invokes the
per-property callback, in order (its c_int return value is ignored by the
code). -/
abbrev ForEachFn := List Nat

/-- The dynamic-symbol environment: whether dlopen("libc.so", RTLD_NOLOAD)
yields a non-null handle, and for each property symbol whether dlsym
resolves it and, if so, the behavior of the resolved native function. -/
structure SymbolEnv where
  libcOpens : Bool
  read_callback : Option ReadCallbackFn
  find : Option FindFn
  get : Option GetFn
  set : Option SetFn
  for_each : Option ForEachFn

/-- PROP_VALUE_MAX from Android's system_properties.h, the fixed capacity
of the old-ABI output buffer (both variants use 92; the model takes
Vec::with_capacity(92) to allocate exactly its requested capacity). -/
def PROPERTY_VALUE_MAX : Nat := 92

namespace Android

/-- Embeds property_callback of src/android.rs: reads the value C string
and converts with to_str().unwrap(), so invalid UTF-8 panics; the name and
serial arguments are ignored. -/
def property_callback (value_mem : Bytes) : RustResult Bytes :=
  let cvalue := cstrFromPtr value_mem
  if utf8Valid cvalue then .ok cvalue else .panicked

/-- Embeds enum Implementation of src/android.rs: the ABI variant selected
at construction, holding the resolved native functions. -/
inductive Implementation where
  | New (find_fn : FindFn) (read_callback_fn : ReadCallbackFn) : Implementation
  | Old (get_fn : GetFn) : Implementation

/-- Embeds Implementation::load_new: requires both new-ABI symbols
(read_callback first, then find, as in the source). -/
def Implementation.load_new (env : SymbolEnv) : Option Implementation := do
  let read_callback_fn ← env.read_callback
  let find_fn ← env.find
  pure (Implementation.New find_fn read_callback_fn)

/-- Embeds Implementation::load_old: requires the old-ABI get symbol. -/
def Implementation.load_old (env : SymbolEnv) : Option Implementation := do
  let get_fn ← env.get
  pure (Implementation.Old get_fn)

/-- Embeds Implementation::new: try the new ABI, fall back to the old. -/
def Implementation.new (env : SymbolEnv) : Option Implementation :=
  (Implementation.load_new env).orElse fun _ => Implementation.load_old env

/-- Embeds Implementation::get of src/android.rs.  New ABI: find, null
check, read via property_callback.  Old ABI: 92-byte buffer, then
assert!(len <= capacity) — modelled as a panic when the reported length
exceeds PROPERTY_VALUE_MAX — then set_len(len) and String::from_utf8(..).ok(). -/
def Implementation.get (impl : Implementation) (uninit : Nat → Nat) (cname : Bytes) :
    RustResult (Option Bytes) :=
  match impl with
  | .New find_fn read_callback_fn =>
    match find_fn cname with
    | none => .ok none
    | some info =>
      match property_callback (read_callback_fn info).2.1 with
      | .ok result => .ok (some result)
      | .panicked => .panicked
  | .Old get_fn =>
    let written := (get_fn cname).1
    let len := (get_fn cname).2
    if len > 0 then
      if len.toNat ≤ PROPERTY_VALUE_MAX then
        .ok (stringFromUtf8 (readBuffer written uninit len.toNat))
      else
        .panicked
    else
      .ok none

/-- Embeds struct Properties of src/android.rs (the libc_so handle field
carries no behavior beyond construction and is omitted). -/
structure Properties where
  implementation : Implementation

/-- Embeds Properties::new of src/android.rs: fails (None) when the libc
handle cannot be opened or neither ABI resolves. -/
def Properties.new (env : SymbolEnv) : Option Properties :=
  if env.libcOpens then
    (Implementation.new env).map fun impl => { implementation := impl }
  else
    none

/-- Embeds Properties::get of src/android.rs: CString::new(name).ok()?
returns None on an interior null byte, then dispatches on the ABI. -/
def Properties.get (p : Properties) (uninit : Nat → Nat) (name : Bytes) :
    RustResult (Option Bytes) :=
  match cstringNew name with
  | none => .ok none
  | some cname => p.implementation.get uninit cname

/-- Modelled from the spec: the thin public wrapper struct of the simpler
variant (the crate root that holds Option of Properties) is not among the
source files; per the spec it forwards to the core on supported platforms,
never fails observably at construction, and returns nothing on every query
when the core is unavailable. -/
structure AndroidSystemProperties where
  inner : Option Properties

/-- Modelled from the spec: wrapper construction wraps Properties::new and
never fails observably (unavailability is internal). -/
def AndroidSystemProperties.new (env : SymbolEnv) : AndroidSystemProperties :=
  { inner := Properties.new env }

/-- Modelled from the spec: wrapper get forwards to Properties::get when
the core is available and returns nothing otherwise. -/
def AndroidSystemProperties.get (p : AndroidSystemProperties) (uninit : Nat → Nat)
    (name : Bytes) : RustResult (Option Bytes) :=
  match p.inner with
  | none => .ok none
  | some props => props.get uninit name

end Android

namespace Lib

/-- Embeds struct Property of src/lib.rs: a name/value pair, byte-level. -/
structure Property where
  name : Bytes
  value : Bytes
deriving DecidableEq

/-- Embeds property_callback of src/lib.rs: reads the name and value C
strings and converts each with to_str().unwrap() (name first, as in the
source), so invalid UTF-8 in either panics; the serial is ignored. -/
def property_callback (name_mem value_mem : Bytes) : RustResult Property :=
  let cname := cstrFromPtr name_mem
  let cvalue := cstrFromPtr value_mem
  if utf8Valid cname then
    if utf8Valid cvalue then .ok { name := cname, value := cvalue } else .panicked
  else .panicked

/-- Embeds struct AndroidProperties of src/lib.rs: the libc handle (by
nullness) and the five optionally resolved native functions. -/
structure AndroidProperties where
  libc_null : Bool
  get_fn : Option GetFn
  set_fn : Option SetFn
  find_fn : Option FindFn
  read_callback_fn : Option ReadCallbackFn
  for_each_fn : Option ForEachFn

/-- Embeds AndroidProperties::new of src/lib.rs under cfg(target_os =
"android"): dlopen libc; on a null handle keep every symbol unresolved;
otherwise resolve read_callback, find, set and foreach unconditionally and
resolve the old-ABI get symbol only when read_callback or find is missing. -/
def AndroidProperties.new (env : SymbolEnv) : AndroidProperties :=
  if env.libcOpens then
    { libc_null := false
      read_callback_fn := env.read_callback
      find_fn := env.find
      set_fn := env.set
      for_each_fn := env.for_each
      get_fn := if env.read_callback.isNone || env.find.isNone then env.get else none }
  else
    { libc_null := true
      get_fn := none
      set_fn := none
      find_fn := none
      read_callback_fn := none
      for_each_fn := none }

/-- Embeds AndroidProperties::new of src/lib.rs under cfg(not(target_os =
"android")): the stub accessor with a null handle and no resolved symbols. -/
def AndroidProperties.newStub : AndroidProperties :=
  { libc_null := true
    get_fn := none
    set_fn := none
    find_fn := none
    read_callback_fn := none
    for_each_fn := none }

/-- Embeds AndroidProperties::get of src/lib.rs.  CString::new(name)
.unwrap() panics on an interior null byte.  New path: find, null check,
read via property_callback, return the value.  Old path: the source builds
a CString from an empty Vec (a one-byte allocation), lets the native
function write through the raw pointer, and on a positive return length
builds the result with String::from_raw_parts(raw, len, 92) — no bound
check against the capacity and no UTF-8 validation, so the result is the
first len bytes of what was written followed by uninitialized memory. -/
def AndroidProperties.get (p : AndroidProperties) (uninit : Nat → Nat) (name : Bytes) :
    RustResult (Option Bytes) :=
  match cstringNew name with
  | none => .panicked
  | some cname =>
    match p.find_fn, p.read_callback_fn with
    | some find_fn, some read_callback_fn =>
      (match find_fn cname with
       | none => .ok none
       | some info =>
         match property_callback (read_callback_fn info).1 (read_callback_fn info).2.1 with
         | .ok result => .ok (some result.value)
         | .panicked => .panicked)
    | _, _ =>
      match p.get_fn with
      | some get_fn =>
        let written := (get_fn cname).1
        let ret := (get_fn cname).2
        if ret > 0 then .ok (some (readBuffer written uninit ret.toNat)) else .ok none
      | none => .ok none

/-- Embeds the error values of AndroidProperties::set of src/lib.rs: the
native-failure message names the property, the attempted value and the
status code; the unavailable message names neither. -/
inductive SetError where
  | nativeFailure (name : Bytes) (value : Bytes) (code : Int) : SetError
  | unavailable : SetError
deriving DecidableEq

/-- Embeds AndroidProperties::set of src/lib.rs: CString::new on name and
value (both unwrap, so interior nulls panic), then the native set call when
the symbol is resolved; a non-negative status is success, a negative one is
the descriptive native failure; an unresolved symbol is the unavailable
error. -/
def AndroidProperties.set (p : AndroidProperties) (name value : Bytes) :
    RustResult (Except SetError Unit) :=
  match cstringNew name with
  | none => .panicked
  | some cname =>
    match cstringNew value with
    | none => .panicked
    | some cvalue =>
      match p.set_fn with
      | some set_fn =>
        let ret := set_fn cname cvalue
        if ret ≥ 0 then .ok (Except.ok ()) else
          .ok (Except.error (SetError.nativeFailure name value ret))
      | none => .ok (Except.error SetError.unavailable)

/-- Embeds foreach_property_callback of src/lib.rs: decode one enumerated
property via the read-callback mechanism (property_callback) and append it
to the accumulator. -/
def foreach_property_callback (read_callback_fn : ReadCallbackFn)
    (acc : RustResult (List Property)) (info : Nat) : RustResult (List Property) :=
  match acc with
  | .panicked => .panicked
  | .ok props =>
    match property_callback (read_callback_fn info).1 (read_callback_fn info).2.1 with
    | .ok prop => .ok (props ++ [prop])
    | .panicked => .panicked

/-- Embeds AndroidProperties::iter of src/lib.rs: when both the foreach and
read-callback symbols are resolved, invoke the native enumeration once,
which calls foreach_property_callback for each property info in order;
otherwise yield the empty sequence. -/
def AndroidProperties.iter (p : AndroidProperties) : RustResult (List Property) :=
  match p.for_each_fn, p.read_callback_fn with
  | some infos, some read_callback_fn =>
    infos.foldl (foreach_property_callback read_callback_fn) (.ok [])
  | _, _ => .ok []

end Lib

namespace Spec

/-- Modelled from the spec: the host platform's property store consumed
through the native symbol surface is external to the repository; per the
spec it is a key-value store of opaque text in which set creates or updates
an entry and find yields an opaque reference exactly when the name is
present.  The store is a list of name/value byte-string pairs, most recent
first. -/
abbrev PropStore := List (Bytes × Bytes)

/-- Modelled from the spec: a successful native set makes the store map the
name to the new value (most recent entry shadows older ones). -/
def storeUpdate (st : PropStore) (k v : Bytes) : PropStore := (k, v) :: st

/-- Modelled from the spec: __system_property_find yields an opaque
reference (here the index of the most recent entry) exactly when the name
is present, and null (none) otherwise. -/
def storeFind : PropStore → Bytes → Option Nat
  | [], _ => none
  | e :: rest, cname =>
    if e.1 == cname then some 0 else (storeFind rest cname).map (fun i => i + 1)

/-- Modelled from the spec: __system_property_read_callback hands the
callback the stored name and value for an opaque reference (serial 0). -/
def storeRead (st : PropStore) (i : Nat) : Bytes × Bytes × Nat :=
  match st.get? i with
  | some e => (e.1, e.2, 0)
  | none => ([], [], 0)

/-- Modelled from the spec: a symbol environment realizing the native
property store, with the new-ABI pair, a set symbol whose native call
succeeds (status 0), and the enumeration symbol listing every entry. -/
def storeEnv (st : PropStore) : SymbolEnv :=
  { libcOpens := true
    read_callback := some (storeRead st)
    find := some (storeFind st)
    get := none
    set := some fun _ _ => 0
    for_each := some (List.range st.length) }

end Spec

/-! Helper lemmas about the marshaling primitives. -/

theorem cstringNew_eq_some {s : Bytes} (h : s.contains 0 = false) : cstringNew s = some s := by
  unfold cstringNew
  rw [h]
  rfl

theorem cstrFromPtr_eq_self {s : Bytes} (h : s.contains 0 = false) : cstrFromPtr s = s := by
  have h0 : 0 ∉ s := by simpa using h
  unfold cstrFromPtr
  rw [List.takeWhile_eq_self_iff]
  intro x hx
  have hx0 : x ≠ 0 := fun he => h0 (he ▸ hx)
  simpa using hx0

/-! Concrete sample data used by closed evaluation theorems. -/

/-- An uninitialized-memory oracle that yields byte 65 everywhere. -/
def uninitA : Nat → Nat := fun _ => 65

/-- An uninitialized-memory oracle that yields byte 66 everywhere. -/
def uninitB : Nat → Nat := fun _ => 66

/-- A symbol environment in which dlopen fails (libc not resident). -/
def envNoLibc : SymbolEnv :=
  { libcOpens := false
    read_callback := none
    find := none
    get := none
    set := none
    for_each := none }

/-- A fake old-ABI native get that writes the two bytes of "hi" into the
buffer but reports length 100, exceeding the 92-byte capacity. -/
def oldGetLong : GetFn := fun _ => ([104, 105], 100)

/-- A fake old-ABI native get that writes the two bytes of "hi" and
correctly reports length 2. -/
def oldGetShort : GetFn := fun _ => ([104, 105], 2)

/-- A fake old-ABI native get that writes the single byte 0xFF (not valid
UTF-8) and reports length 1. -/
def oldGetInvalid : GetFn := fun _ => ([255], 1)

/-- A fake new-ABI find that resolves every name to the token 0. -/
def findAll : FindFn := fun _ => some 0

/-- A fake new-ABI read callback handing the callback name "n" and the
single value byte 0xFF (not valid UTF-8). -/
def readInvalid : ReadCallbackFn := fun _ => ([110], [255], 1)

/-- A fake new-ABI read callback handing the callback name "n" and value
"v". -/
def readOkVal : ReadCallbackFn := fun _ => ([110], [118], 1)

/-- A fuller-variant accessor with the given resolved get, find and
read-callback symbols (set and foreach unresolved). -/
def libWith (g : Option GetFn) (f : Option FindFn) (r : Option ReadCallbackFn) :
    Lib.AndroidProperties :=
  { libc_null := false
    get_fn := g
    set_fn := none
    find_fn := f
    read_callback_fn := r
    for_each_fn := none }

/-- C1: evaluation of both old-ABI paths at a fake native get reporting
length 100 for a 92-byte buffer, and at one reporting a correct short
length.  The simpler variant panics on its assert rather than returning
nothing; the fuller variant performs no bound check and returns 100 bytes,
98 of which are uninitialized memory, so its result changes with the
memory's contents (corrupted data); short correctly-reported values
succeed in both. -/
theorem claim_C1_old_abi_bound_check :
    (Android.Properties.mk (Android.Implementation.Old oldGetLong)).get uninitA [107]
        = .panicked ∧
    (libWith (some oldGetLong) none none).get uninitA [107]
        = .ok (some (readBuffer [104, 105] uninitA 100)) ∧
    (libWith (some oldGetLong) none none).get uninitA [107]
        ≠ (libWith (some oldGetLong) none none).get uninitB [107] ∧
    (Android.Properties.mk (Android.Implementation.Old oldGetShort)).get uninitA [107]
        = .ok (some [104, 105]) ∧
    (libWith (some oldGetShort) none none).get uninitA [107] = .ok (some [104, 105]) := by
  refine ⟨by decide, by decide, by decide, by decide, by decide⟩

/-- C2: evaluation of get at the name bytes [97, 0, 98] (an interior null
byte) against fake native layers that would answer if consulted (findAll
resolves every name; oldGetShort returns "hi").  The simpler variant
returns nothing on both ABIs without reaching the native layer; the fuller
variant panics in CString::new(name).unwrap() on both ABIs, contradicting
its own doc comment (Returns None if the operation fails) and the claim. -/
theorem claim_C2_embedded_null :
    (Android.Properties.mk (Android.Implementation.New findAll readOkVal)).get uninitA
        [97, 0, 98] = .ok none ∧
    (Android.Properties.mk (Android.Implementation.Old oldGetShort)).get uninitA
        [97, 0, 98] = .ok none ∧
    (libWith none (some findAll) (some readOkVal)).get uninitA [97, 0, 98] = .panicked ∧
    (libWith (some oldGetShort) none none).get uninitA [97, 0, 98] = .panicked := by
  refine ⟨by decide, by decide, by decide, by decide⟩

/-- C3: evaluation of get against native layers whose value bytes are the
invalid UTF-8 byte 0xFF.  On the new-ABI path both variants panic in the
callback's to_str().unwrap() instead of returning nothing; the old-ABI path
of the simpler variant returns nothing as claimed; the old-ABI path of the
fuller variant returns the invalid bytes unvalidated (garbage text). -/
theorem claim_C3_decode_failure :
    (Android.Properties.mk (Android.Implementation.New findAll readInvalid)).get uninitA
        [107] = .panicked ∧
    (libWith none (some findAll) (some readInvalid)).get uninitA [107] = .panicked ∧
    (Android.Properties.mk (Android.Implementation.Old oldGetInvalid)).get uninitA [107]
        = .ok none ∧
    (libWith (some oldGetInvalid) none none).get uninitA [107] = .ok (some [255]) := by
  refine ⟨by decide, by decide, by decide, by decide⟩

theorem lib_property_callback_ok {nm v : Bytes} (h1 : utf8Valid (cstrFromPtr nm) = true)
    (h2 : utf8Valid (cstrFromPtr v) = true) :
    Lib.property_callback nm v =
      .ok { name := cstrFromPtr nm, value := cstrFromPtr v } := by
  simp [Lib.property_callback, h1, h2]

/-- C6: under the new ABI, for every valid name (no interior null byte),
get returns nothing exactly when the native lookup yields a null
reference; when the lookup yields a reference, get invokes the read
function with the callback that copies the native value into the
caller-owned slot and returns that copied value (shown for the new-ABI
paths of both variants; the value hypotheses state that the native value
is a well-formed C string holding valid text, and for the fuller variant
likewise the native name, which its callback also decodes). -/
theorem claim_C6_new_abi_get (find_fn : FindFn) (read_callback_fn : ReadCallbackFn)
    (p : Lib.AndroidProperties)
    (hf : p.find_fn = some find_fn) (hr : p.read_callback_fn = some read_callback_fn)
    (uninit : Nat → Nat) (name : Bytes) (hname : name.contains 0 = false) :
    ((Android.Properties.mk (Android.Implementation.New find_fn read_callback_fn)).get
        uninit name = .ok none ↔ find_fn name = none) ∧
    (p.get uninit name = .ok none ↔ find_fn name = none) ∧
    (∀ info, find_fn name = some info →
      (read_callback_fn info).2.1.contains 0 = false →
      utf8Valid (read_callback_fn info).2.1 = true →
      (Android.Properties.mk (Android.Implementation.New find_fn read_callback_fn)).get
          uninit name = .ok (some (read_callback_fn info).2.1) ∧
      ((read_callback_fn info).1.contains 0 = false →
        utf8Valid (read_callback_fn info).1 = true →
        p.get uninit name = .ok (some (read_callback_fn info).2.1))) := by
  have hcs := cstringNew_eq_some hname
  refine ⟨?_, ?_, ?_⟩
  · cases hfind : find_fn name with
    | none =>
      simp [Android.Properties.get, Android.Implementation.get, hcs, hfind]
    | some info =>
      cases hpc : Android.property_callback (read_callback_fn info).2.1 <;>
        simp [Android.Properties.get, Android.Implementation.get, hcs, hfind, hpc]
  · cases hfind : find_fn name with
    | none =>
      simp [Lib.AndroidProperties.get, hcs, hf, hr, hfind]
    | some info =>
      cases hpc :
          Lib.property_callback (read_callback_fn info).1 (read_callback_fn info).2.1 <;>
        simp [Lib.AndroidProperties.get, hcs, hf, hr, hfind, hpc]
  · intro info hfind hvnul hvu
    have hva : cstrFromPtr (read_callback_fn info).2.1 = (read_callback_fn info).2.1 :=
      cstrFromPtr_eq_self hvnul
    constructor
    · simp [Android.Properties.get, Android.Implementation.get, hcs, hfind,
        Android.property_callback, hva, hvu]
    · intro hnnul hnu
      have hna : cstrFromPtr (read_callback_fn info).1 = (read_callback_fn info).1 :=
        cstrFromPtr_eq_self hnnul
      simp [Lib.AndroidProperties.get, hcs, hf, hr, hfind,
        lib_property_callback_ok (hna ▸ hnu) (hva ▸ hvu), hva]

/-- C6 witness: the theorem applied to a concrete new-ABI layer resolving
every name, at name byte [107], yields the copied value byte [118]. -/
theorem claim_C6_witness :
    (libWith none (some findAll) (some readOkVal)).get uninitA [107] = .ok (some [118]) :=
  ((claim_C6_new_abi_get findAll readOkVal (libWith none (some findAll) (some readOkVal))
      rfl rfl uninitA [107] (by decide)).2.2 0 rfl (by decide) (by decide)).2
    (by decide) (by decide)

/-- A fuller-variant accessor whose only resolved symbol is a native set
that always reports status 0. -/
def pSetOk : Lib.AndroidProperties :=
  { libc_null := false
    get_fn := none
    set_fn := some fun _ _ => 0
    find_fn := none
    read_callback_fn := none
    for_each_fn := none }

/-- C7 (amended): for every name and value free of interior null bytes,
set returns success exactly when a set symbol is resolved and the native
set call reports a non-negative status; an unresolved symbol yields the
descriptive unavailable failure and a negative status yields the
descriptive failure naming the property and the attempted value (a name or
value with an interior null byte instead panics in CString conversion, see
the counterexample). -/
theorem claim_C7_set_result (p : Lib.AndroidProperties) (name value : Bytes)
    (hn : name.contains 0 = false) (hv : value.contains 0 = false) :
    (p.set_fn = none →
      p.set name value = .ok (Except.error Lib.SetError.unavailable)) ∧
    (∀ f, p.set_fn = some f →
      (0 ≤ f name value → p.set name value = .ok (Except.ok ())) ∧
      (f name value < 0 →
        p.set name value =
          .ok (Except.error (Lib.SetError.nativeFailure name value (f name value))))) ∧
    (p.set name value = .ok (Except.ok ()) ↔
      ∃ f, p.set_fn = some f ∧ 0 ≤ f name value) := by
  have hcn := cstringNew_eq_some hn
  have hcv := cstringNew_eq_some hv
  refine ⟨?_, ?_, ?_⟩
  · intro hs
    simp [Lib.AndroidProperties.set, hcn, hcv, hs]
  · intro f hs
    constructor
    · intro hpos
      simp [Lib.AndroidProperties.set, hcn, hcv, hs, hpos]
    · intro hneg
      simp [Lib.AndroidProperties.set, hcn, hcv, hs, Int.not_le.mpr hneg]
  · constructor
    · intro hok
      cases hs : p.set_fn with
      | none => simp [Lib.AndroidProperties.set, hcn, hcv, hs] at hok
      | some f =>
        by_cases hpos : 0 ≤ f name value
        · exact ⟨f, rfl, hpos⟩
        · simp [Lib.AndroidProperties.set, hcn, hcv, hs, hpos] at hok
    · rintro ⟨f, hs, hpos⟩
      simp [Lib.AndroidProperties.set, hcn, hcv, hs, hpos]

/-- C7 witness: the theorem applied to the accessor whose native set
reports status 0, at name byte [107] and value byte [118]. -/
theorem claim_C7_witness : pSetOk.set [107] [118] = .ok (Except.ok ()) :=
  ((claim_C7_set_result pSetOk [107] [118] (by decide) (by decide)).2.1
    (fun _ _ => 0) rfl).1 (by decide)

/-- C7 counterexample: with the set symbol resolved and a native status of
0, set on the name bytes [0] panics instead of returning success, refuting
the claim for names holding an interior null byte. -/
theorem claim_C7_counterexample :
    pSetOk.set [0] [118] = .panicked ∧ pSetOk.set [0] [118] ≠ .ok (Except.ok ()) :=
  ⟨by decide, by decide⟩

/-- C4 (amended): construction never fails observably — the spec-modelled
public wrapper of the simpler variant and AndroidProperties::new of the
fuller variant always yield an accessor — and when the library handle
cannot be opened or neither get-ABI resolves, every subsequent get returns
nothing: unconditionally for the wrapper of the simpler variant, and for
every name free of interior null bytes in the fuller variant (a name with
an interior null byte panics in name conversion there, see the
counterexample). -/
theorem claim_C4_unresolved_get_nothing (env : SymbolEnv)
    (h : env.libcOpens = false ∨
      ((env.read_callback = none ∨ env.find = none) ∧ env.get = none)) :
    (∀ uninit name,
      (Android.AndroidSystemProperties.new env).get uninit name = .ok none) ∧
    (∀ uninit name, name.contains 0 = false →
      (Lib.AndroidProperties.new env).get uninit name = .ok none) := by
  constructor
  · intro uninit name
    have hnone : Android.Properties.new env = none := by
      rcases h with h | ⟨h1, h2⟩
      · simp [Android.Properties.new, h]
      · by_cases hl : env.libcOpens
        · rcases h1 with h1 | h1 <;>
            simp [Android.Properties.new, hl, Android.Implementation.new,
              Android.Implementation.load_new, Android.Implementation.load_old, h1, h2,
              Option.orElse, bind]
        · simp [Android.Properties.new, hl]
    simp [Android.AndroidSystemProperties.new, Android.AndroidSystemProperties.get, hnone]
  · intro uninit name hname
    rcases h with h | ⟨h1, h2⟩
    · simp [Lib.AndroidProperties.new, h, Lib.AndroidProperties.get,
        cstringNew_eq_some hname]
    · by_cases hl : env.libcOpens
      · rcases h1 with h1 | h1 <;>
          cases hrc : env.read_callback <;> cases hf : env.find <;>
            simp_all [Lib.AndroidProperties.new, hl, Lib.AndroidProperties.get,
              cstringNew_eq_some hname, h2, Option.isNone]
      · simp [Lib.AndroidProperties.new, hl, Lib.AndroidProperties.get,
          cstringNew_eq_some hname]

/-- C4 witness: the theorem applied to the concrete environment in which
dlopen fails, at the name byte [107]. -/
theorem claim_C4_witness :
    (Android.AndroidSystemProperties.new envNoLibc).get uninitA [107] = .ok none ∧
    (Lib.AndroidProperties.new envNoLibc).get uninitA [107] = .ok none :=
  ⟨(claim_C4_unresolved_get_nothing envNoLibc (Or.inl rfl)).1 uninitA [107],
   (claim_C4_unresolved_get_nothing envNoLibc (Or.inl rfl)).2 uninitA [107] (by decide)⟩

/-- C4 counterexample: on the fuller variant in the unresolved state, get
on the name bytes [97, 0] (an interior null byte) panics rather than
returning nothing, refuting that every subsequent get returns nothing
without panicking. -/
theorem claim_C4_counterexample :
    (Lib.AndroidProperties.new envNoLibc).get uninitA [97, 0] = .panicked ∧
    (Lib.AndroidProperties.new envNoLibc).get uninitA [97, 0] ≠ .ok none := by
  constructor
  · decide
  · decide

/-- C5: construction selects the resolved ABI with deterministic precedence
in a single pass: with both new-ABI symbols resolved the new ABI is
selected and the old-ABI get symbol is not used for get dispatch (android.rs
selects Implementation::New; lib.rs leaves get_fn unresolved); with at least
one new-ABI symbol missing, the old-ABI get symbol decides (android.rs maps
it to Implementation::Old, lib.rs stores it as get_fn); with that also
missing no ABI is selected. -/
theorem claim_C5_construction_precedence (env : SymbolEnv) :
    (∀ r f, env.read_callback = some r → env.find = some f →
      Android.Implementation.new env = some (Android.Implementation.New f r) ∧
      (env.libcOpens = true →
        (Lib.AndroidProperties.new env).get_fn = none ∧
        (Lib.AndroidProperties.new env).find_fn = some f ∧
        (Lib.AndroidProperties.new env).read_callback_fn = some r)) ∧
    ((env.read_callback = none ∨ env.find = none) →
      Android.Implementation.new env = (env.get).map Android.Implementation.Old ∧
      (env.libcOpens = true → (Lib.AndroidProperties.new env).get_fn = env.get)) ∧
    ((env.read_callback = none ∨ env.find = none) → env.get = none →
      Android.Implementation.new env = none) := by
  refine ⟨fun r f hr hf => ?_, fun h => ?_, fun h hg => ?_⟩
  · constructor
    · simp [Android.Implementation.new, Android.Implementation.load_new, hr, hf,
        Option.orElse, bind]
    · intro hl
      simp [Lib.AndroidProperties.new, hl, hr, hf]
  · constructor
    · rcases h with h | h <;>
        cases hg : env.get <;>
          simp [Android.Implementation.new, Android.Implementation.load_new,
            Android.Implementation.load_old, h, hg, Option.orElse, bind]
    · intro hl
      rcases h with h | h <;>
        simp [Lib.AndroidProperties.new, hl, h, Option.isNone]
  · rcases h with h | h <;>
      simp [Android.Implementation.new, Android.Implementation.load_new,
        Android.Implementation.load_old, h, hg, Option.orElse, bind]

/-- C5 witness: the theorem applied to a concrete environment in which both
new-ABI symbols resolve. -/
theorem claim_C5_witness :
    Android.Implementation.new
        { libcOpens := true
          read_callback := some (fun _ => ([110], [118], 1))
          find := some (fun _ => some 0)
          get := some (fun _ => ([], 0))
          set := none
          for_each := none } =
      some (Android.Implementation.New (fun _ => some 0) (fun _ => ([110], [118], 1))) :=
  ((claim_C5_construction_precedence _).1 _ _ rfl rfl).1

/-- Decoding of one enumerated property through the read-callback
mechanism, when both C strings hold valid text. -/
def decodeProp (read_callback_fn : ReadCallbackFn) (i : Nat) : Lib.Property :=
  { name := cstrFromPtr (read_callback_fn i).1
    value := cstrFromPtr (read_callback_fn i).2.1 }

theorem iter_foldl_ok (read_callback_fn : ReadCallbackFn) :
    ∀ (infos : List Nat),
      (∀ i ∈ infos, utf8Valid (cstrFromPtr (read_callback_fn i).1) = true ∧
        utf8Valid (cstrFromPtr (read_callback_fn i).2.1) = true) →
      ∀ acc : List Lib.Property,
        infos.foldl (Lib.foreach_property_callback read_callback_fn) (.ok acc) =
          .ok (acc ++ infos.map (decodeProp read_callback_fn)) := by
  intro infos
  induction infos with
  | nil => intro _ acc; simp
  | cons i rest ih =>
    intro h acc
    have hi := h i (by simp)
    have hrest : ∀ j ∈ rest, utf8Valid (cstrFromPtr (read_callback_fn j).1) = true ∧
        utf8Valid (cstrFromPtr (read_callback_fn j).2.1) = true :=
      fun j hj => h j (by simp [hj])
    have step : Lib.foreach_property_callback read_callback_fn (.ok acc) i =
        .ok (acc ++ [decodeProp read_callback_fn i]) := by
      simp [Lib.foreach_property_callback, lib_property_callback_ok hi.1 hi.2, decodeProp]
    rw [List.foldl_cons, step, ih hrest, List.map_cons, List.append_assoc]
    simp

/-- C8: iterate produces the empty sequence whenever the foreach symbol or
the read-callback symbol is unresolved; when both resolve, it invokes the
native enumeration once (the single fold over the infos the enumeration
hands the per-property callback) and yields an eagerly-materialized list
whose length equals the number of callback invocations, each element being
the result of the same read-callback decoding used by get. -/
theorem claim_C8_iterate (p : Lib.AndroidProperties) :
    ((p.for_each_fn = none ∨ p.read_callback_fn = none) → p.iter = .ok []) ∧
    (∀ infos read_callback_fn, p.for_each_fn = some infos →
      p.read_callback_fn = some read_callback_fn →
      (∀ i ∈ infos, utf8Valid (cstrFromPtr (read_callback_fn i).1) = true ∧
        utf8Valid (cstrFromPtr (read_callback_fn i).2.1) = true) →
      ∃ props, p.iter = .ok props ∧ props.length = infos.length ∧
        ∀ j (hj : j < infos.length) (hp : j < props.length),
          Lib.property_callback (read_callback_fn (infos.get ⟨j, hj⟩)).1
              (read_callback_fn (infos.get ⟨j, hj⟩)).2.1 =
            .ok (props.get ⟨j, hp⟩)) := by
  constructor
  · intro h
    rcases h with h | h <;>
      cases hfe : p.for_each_fn <;> cases hrc : p.read_callback_fn <;>
        simp_all [Lib.AndroidProperties.iter]
  · intro infos read_callback_fn hfe hrc hvalid
    refine ⟨infos.map (decodeProp read_callback_fn), ?_, by simp, ?_⟩
    · unfold Lib.AndroidProperties.iter
      rw [hfe, hrc]
      simpa using iter_foldl_ok read_callback_fn infos hvalid []
    · intro j hj hp
      have hv := hvalid (infos.get ⟨j, hj⟩) (infos.get_mem j hj)
      rw [lib_property_callback_ok hv.1 hv.2]
      congr 1
      simp [List.get_eq_getElem, decodeProp]

/-- A fuller-variant accessor whose foreach symbol enumerates the two
tokens 0 and 1 and whose read callback yields name "n" and value "v". -/
def pIter : Lib.AndroidProperties :=
  { libc_null := false
    get_fn := none
    set_fn := none
    find_fn := none
    read_callback_fn := some readOkVal
    for_each_fn := some [0, 1] }

/-- C8 witness: the theorem applied to a concrete accessor enumerating two
properties yields a materialized list of length two. -/
theorem claim_C8_witness :
    ∃ props, pIter.iter = .ok props ∧ props.length = 2 := by
  obtain ⟨props, h1, h2, _⟩ :=
    (claim_C8_iterate pIter).2 [0, 1] readOkVal rfl rfl (by decide)
  exact ⟨props, h1, h2⟩

/-- C9: set/get round-trip against the spec-modelled native property
store: for every store state and every key and value representable as C
strings holding valid text, if set succeeds on the accessor then get on
the accessor over the updated store returns exactly that value. -/
theorem claim_C9_set_get_roundtrip (st : Spec.PropStore) (k v : Bytes) (uninit : Nat → Nat)
    (hk : k.contains 0 = false) (hv : v.contains 0 = false)
    (hku : utf8Valid k = true) (hvu : utf8Valid v = true)
    (hset : (Lib.AndroidProperties.new (Spec.storeEnv st)).set k v = .ok (Except.ok ())) :
    (Lib.AndroidProperties.new (Spec.storeEnv (Spec.storeUpdate st k v))).get uninit k =
      .ok (some v) := by
  simp [Lib.AndroidProperties.new, Spec.storeEnv, Lib.AndroidProperties.get,
    cstringNew_eq_some hk, Spec.storeUpdate, Spec.storeFind, Spec.storeRead,
    Lib.property_callback, cstrFromPtr_eq_self hk, cstrFromPtr_eq_self hv, hku, hvu]

/-- C9 witness: the theorem applied to the empty store with key byte [107]
and value byte [118]. -/
theorem claim_C9_witness :
    (Lib.AndroidProperties.new (Spec.storeEnv (Spec.storeUpdate [] [107] [118]))).get
        uninitA [107] = .ok (some [118]) :=
  claim_C9_set_get_roundtrip [] [107] [118] uninitA (by decide) (by decide) (by decide)
    (by decide) (by decide)

/-- C10 (amended): the stub accessor of the fuller variant (the
construction compiled on non-Android platforms: null handle, no resolved
symbols) has set return the descriptive unavailable error for every name
and value free of interior null bytes (inputs with an interior null byte
panic in CString conversion, see the counterexample), has iterate always
yield the empty sequence, and holds no native function through which
native code could be invoked. -/
theorem claim_C10_stub_behavior (name value : Bytes)
    (hn : name.contains 0 = false) (hv : value.contains 0 = false) :
    Lib.AndroidProperties.newStub.set name value =
      .ok (Except.error Lib.SetError.unavailable) ∧
    Lib.AndroidProperties.newStub.iter = .ok [] ∧
    Lib.AndroidProperties.newStub.set_fn = none ∧
    Lib.AndroidProperties.newStub.for_each_fn = none ∧
    Lib.AndroidProperties.newStub.find_fn = none ∧
    Lib.AndroidProperties.newStub.read_callback_fn = none ∧
    Lib.AndroidProperties.newStub.get_fn = none ∧
    Lib.AndroidProperties.newStub.libc_null = true := by
  refine ⟨?_, by decide, rfl, rfl, rfl, rfl, rfl, rfl⟩
  simp [Lib.AndroidProperties.set, cstringNew_eq_some hn, cstringNew_eq_some hv,
    Lib.AndroidProperties.newStub]

/-- C10 witness: the theorem applied at name byte [107] and value byte
[118]. -/
theorem claim_C10_witness :
    Lib.AndroidProperties.newStub.set [107] [118] =
      .ok (Except.error Lib.SetError.unavailable) :=
  (claim_C10_stub_behavior [107] [118] (by decide) (by decide)).1

/-- C10 counterexample: on the stub accessor, set at the name bytes [0]
panics in CString conversion instead of returning a descriptive error,
refuting the claim for every input. -/
theorem claim_C10_counterexample :
    Lib.AndroidProperties.newStub.set [0] [118] = .panicked ∧
    Lib.AndroidProperties.newStub.set [0] [118] ≠
      .ok (Except.error Lib.SetError.unavailable) :=
  ⟨by decide, by decide⟩
